import Mathlib

/-!
# keep-streaming: verification of the read/write engines

A shallow embedding of the `keep-streaming` library (`src/File.js`,
`src/ReadOperation.js`, and the write-operation module) in Lean 4.

Modelling conventions:

* JavaScript `Error` objects are modelled by `JsError` (a `code` string such
  as `"ENOENT"`, and a `message`); `throw e` in a retry strategy is modelled
  by `Except.error e`, a returned delay by `Except.ok`.
* A retry strategy in the engines may return a non-number (the code checks
  `typeof delay === 'number'`), so engine-facing strategies return
  `Except JsError (Option Nat)`: `some d` is a numeric delay, `none` a
  non-numeric return.
* The engines are single-threaded and event-driven; they are modelled as
  explicit state machines driven by a trace of environment events
  (filesystem callback results, stream events, timer firings, and consumer
  calls), with all externally visible callback invocations collected in an
  output list.
-/

/-- A JavaScript `Error` as observed by this library: an optional `code`
(`"ENOENT"`, `"EEXIST"`, ...) and a message.  A plain `new Error(msg)` has
an empty `code`. -/
structure JsError where
  code : String := ""
  message : String := ""
deriving DecidableEq, Repr

/-- JavaScript `String.prototype.startsWith`, phrased over the character
lists underlying Lean strings so that it evaluates by kernel reduction. -/
def jsStartsWith (s pre : String) : Bool := pre.data.isPrefixOf s.data

/-- `defaultReadFileExistsRetryStrategy` from `src/File.js`: for `ENOENT`,
device paths (prefix `/dev/`) back off `2000 * min(attempt, 5)` ms and fail
at attempt 10; other paths back off `1000 * attempt` ms and fail at attempt
5; any other error is re-thrown unchanged. -/
def defaultReadFileExistsRetryStrategy (error : JsError) (attempt : Nat)
    (information : String) : Except JsError Nat :=
  if error.code = "ENOENT" then
    if jsStartsWith information "/dev/" then
      if attempt ≥ 10 then
        .error { message := "Device not available after " ++ toString attempt
                              ++ " retries: " ++ information }
      else
        .ok (2000 * min attempt 5)
    else
      if attempt ≥ 5 then
        .error { message := "File not found after " ++ toString attempt
                              ++ " retries: " ++ information }
      else
        .ok (1000 * attempt)
  else
    .error error

/-- `defaultReadFileRetryStrategy` from `src/File.js`: 100 ms delay, fails
at attempt 5. -/
def defaultReadFileRetryStrategy (_error : JsError) (attempt : Nat)
    (information : String) : Except JsError Nat :=
  if attempt ≥ 5 then
    .error { message := "Failed to read file after " ++ toString attempt
                          ++ " retries: " ++ information }
  else
    .ok 100

/-- `defaultWriteFileExistsRetryStrategy` from `src/File.js`; textually the
same decision procedure as the read variant. -/
def defaultWriteFileExistsRetryStrategy (error : JsError) (attempt : Nat)
    (information : String) : Except JsError Nat :=
  if error.code = "ENOENT" then
    if jsStartsWith information "/dev/" then
      if attempt ≥ 10 then
        .error { message := "Device not available after " ++ toString attempt
                              ++ " retries: " ++ information }
      else
        .ok (2000 * min attempt 5)
    else
      if attempt ≥ 5 then
        .error { message := "File not found after " ++ toString attempt
                              ++ " retries: " ++ information }
      else
        .ok (1000 * attempt)
  else
    .error error

/-- `defaultWriteFileRetryStrategy` from `src/File.js`: 100 ms delay, fails
at attempt 5. -/
def defaultWriteFileRetryStrategy (_error : JsError) (attempt : Nat)
    (information : String) : Except JsError Nat :=
  if attempt ≥ 5 then
    .error { message := "Failed to write to file after " ++ toString attempt
                          ++ " retries: " ++ information }
  else
    .ok 100

/-- The result of a retry strategy raising (either a fresh error or a
re-thrown one). -/
def raisesError (r : Except JsError Nat) : Prop := ∃ e, r = Except.error e

/-! ## Stream open flags (`_createWriteStream` / `_createReadStream`) -/

/-- The device kind reported by `fs.statSync` for a `/dev/` path. -/
inductive DeviceKind
  | character
  | block
  | other
deriving DecidableEq, Repr

/-- Open flags chosen by `WriteOperation._createWriteStream`.  For `/dev/`
paths the kind is consulted: character devices try `r+` and fall back to
`w` when that open throws (`rwOpenFails`); block devices use `w`; other
device-path kinds use `r+`.  Non-device paths use `createWriteStream`'s
default flags, `w`. -/

def writeStreamFlags (filePath : String) (kind : DeviceKind)
    (rwOpenFails : Bool) : String :=
  if jsStartsWith filePath "/dev/" then
    match kind with
    | .character => if rwOpenFails then "w" else "r+"
    | .block => "w"
    | .other => "r+"
  else
    "w"

/-- Open flags chosen by `ReadOperation._createReadStream`.  Every `/dev/`
path — the device kind is never consulted — tries `r+` first and falls back
to `r` when that open throws; all other paths use `r`. -/
def readStreamFlags (filePath : String) (rwOpenFails : Bool) : String :=
  if jsStartsWith filePath "/dev/" then
    if rwOpenFails then "r" else "r+"
  else
    "r"

/-! ## Read-timeout timer (`_createReadStream`, timeout block) -/

/-- Stream events relevant to the read-timeout timer. -/
inductive StreamEv
  | dataEv
  | endEv
  | errorEv
  | closeEv
deriving DecidableEq, Repr

/-- Whether `_createReadStream` arms the inactivity timer for a freshly
opened stream: `if (timeout > 0) { ... setTimeout(...) ... }`. -/
def readTimeoutArmed (timeout : Nat) : Bool := decide (0 < timeout)

/-- Which stream events clear the armed timer.  The only registration is
`stream.on('error', () => clearTimeout(timeoutHandle))`; no handler clears
it on `end` or `close`. -/
def readTimeoutCleared : StreamEv → Bool
  | .errorEv => true
  | _ => false

/-- The error with which the fired timer destroys the stream:
`new Error(filePath + " read timeout after " + timeout + "ms")`. -/
def readTimeoutError (filePath : String) (timeout : Nat) : JsError :=
  { message := filePath ++ " read timeout after " ++ toString timeout ++ "ms" }

/-! ## The serialized write engine (`WriteOperation`)

`WriteOperation._execute` acquires the per-path mutex, then runs
`_waitForFileAndWrite(1, unlock)`; every terminal path calls `unlock`
exactly where the source does.  The asynchronous environment (results of
`fs.access` / `fs.mkdir`, and the fate of each write stream) is supplied
as oracles indexed by the attempt number; `setTimeout` delays do not alter
which callbacks run, only when, so the event list ignores them.  Recursion
is fuel-bounded: `none` means the retry loop has not terminated within the
given fuel. -/

/-- Externally visible effects of a `WriteOperation`, in order: the mutex
release (`unlock()`), the finish callback, the error callback, and a
completed whole-payload write to the destination. -/
inductive WEvent
  | unlock
  | finishCb
  | errorCb (e : JsError)
  | wrote (payload : String)
deriving DecidableEq, Repr

/-- Fate of one write attempt (`_performWrite` body): the stream emits
`finish`; or the stream emits `error e`; or creating the stream / writing
throws synchronously (`setupThrow`), landing in the surrounding `catch`. -/
inductive WriteAttemptOutcome
  | streamFinish
  | streamError (e : JsError)
  | setupThrow (e : JsError)
deriving DecidableEq, Repr

/-- An engine-facing retry strategy: `(error, attempt, path)` to a thrown
error, or a returned value that is a number (`some d`) or not (`none`). -/
def RetryStrategy : Type := JsError → Nat → String → Except JsError (Option Nat)

/-- View a number-returning strategy (the `File.js` defaults) as an
engine-facing one. -/
def asEngineStrategy (f : JsError → Nat → String → Except JsError Nat) :
    RetryStrategy :=
  fun e a p => (f e a p).map some

/-- JS `filePath.substring(0, filePath.lastIndexOf('/'))`: everything up to
the last slash, `""` when there is no slash (JS `substring(0, -1)` is
`""`). -/
def dirnamePart (s : String) : String :=
  let cs := s.data
  if '/' ∈ cs then
    String.mk (cs.take (cs.length - 1 - cs.reverse.indexOf '/'))
  else
    ""

/-- Configuration and environment of one `WriteOperation`. -/
structure WConfig where
  /-- `this._filePath` -/
  filePath : String
  /-- `this._data` (payload; string vs. `Buffer` is irrelevant here) -/
  payload : String
  /-- whether `onFinish` registered a callback -/
  hasFinishCb : Bool
  /-- whether `onError` registered a callback -/
  hasErrorCb : Bool
  /-- `options.writeFileExistsRetryStrategy` -/
  writeFileExistsRetryStrategy : RetryStrategy
  /-- `options.writeFileRetryStrategy` -/
  writeFileRetryStrategy : RetryStrategy
  /-- `this._isNamedPipe()` (constant per path during a run) -/
  isNamedPipe : Bool
  /-- result of the `attempt`-th `fs.access` / `fs.mkdir` callback:
  `none` = success, `some e` = error -/
  existsOutcome : Nat → Option JsError
  /-- fate of the `attempt`-th write attempt -/
  writeOutcome : Nat → WriteAttemptOutcome

/-- `WriteOperation._handleError`: fire the error callback only when one
was registered; otherwise the error is dropped. -/
def handleErrorW (cfg : WConfig) (e : JsError) : List WEvent :=
  if cfg.hasErrorCb then [.errorCb e] else []

/-- `WriteOperation._performWrite(attempt, unlock)`.  On stream `finish`:
the payload has been written, then `unlock()` and the finish callback.  On
stream `error`: consult `writeFileRetryStrategy`; any returned value
(numeric delay via `setTimeout`, or an immediate call for a non-number)
re-runs `_performWrite(attempt + 1)`; a throw runs `unlock()` then
`_handleError`.  A synchronous throw in the body runs the `catch`:
`unlock()` then `_handleError`. -/
def performWrite (cfg : WConfig) : Nat → Nat → Option (List WEvent)
  | 0, _ => none
  | fuel + 1, attempt =>
    match cfg.writeOutcome attempt with
    | .setupThrow e => some (.unlock :: handleErrorW cfg e)
    | .streamFinish =>
        some ([.wrote cfg.payload, .unlock]
                ++ if cfg.hasFinishCb then [.finishCb] else [])
    | .streamError e =>
        match cfg.writeFileRetryStrategy e attempt cfg.filePath with
        | .ok _ => performWrite cfg fuel (attempt + 1)
        | .error e2 => some (.unlock :: handleErrorW cfg e2)

/-- `WriteOperation._waitForFileAndWrite(attempt, unlock)` with
`_handleFileExistsError` inlined at its two call sites.  Device paths and
FIFOs run `fs.access`; regular paths run `fs.mkdir(dir, {recursive:true})`
when `dir` is non-empty, treating an `EEXIST` error as success.  An
existence failure consults `writeFileExistsRetryStrategy`: any returned
value reschedules `_waitForFileAndWrite(attempt + 1)` (after `delay` or
1 ms); a throw runs `unlock()` then `_handleError`.  Success enters
`_performWrite(1, unlock)` — the write attempt counter restarts at 1. -/
def waitForFileAndWrite (cfg : WConfig) : Nat → Nat → Option (List WEvent)
  | 0, _ => none
  | fuel + 1, attempt =>
    if jsStartsWith cfg.filePath "/dev/" || cfg.isNamedPipe then
      match cfg.existsOutcome attempt with
      | some e =>
          match cfg.writeFileExistsRetryStrategy e attempt cfg.filePath with
          | .ok _ => waitForFileAndWrite cfg fuel (attempt + 1)
          | .error e2 => some (.unlock :: handleErrorW cfg e2)
      | none => performWrite cfg fuel 1
    else
      if dirnamePart cfg.filePath = "" then
        performWrite cfg fuel 1
      else
        match cfg.existsOutcome attempt with
        | some e =>
            if e.code = "EEXIST" then
              performWrite cfg fuel 1
            else
              match cfg.writeFileExistsRetryStrategy e attempt cfg.filePath with
              | .ok _ => waitForFileAndWrite cfg fuel (attempt + 1)
              | .error e2 => some (.unlock :: handleErrorW cfg e2)
        | none => performWrite cfg fuel 1

/-- One `WriteOperation` after its mutex grant: `_waitForFileAndWrite(1,
unlock)`.  (The `another-mutex` lock promise does not reject, so
`_execute`'s `.catch` branch is unreachable.) -/
def executeWrite (cfg : WConfig) (fuel : Nat) : Option (List WEvent) :=
  waitForFileAndWrite cfg fuel 1

/-- The event list of a successful write. -/
def successEvents (cfg : WConfig) : List WEvent :=
  [.wrote cfg.payload, .unlock] ++ if cfg.hasFinishCb then [.finishCb] else []

/-- The event list of a permanently failed write, terminal error `e`. -/
def failureEvents (cfg : WConfig) (e : JsError) : List WEvent :=
  .unlock :: handleErrorW cfg e

/-- Modelled from the spec: the per-path lock of the Write Serialization
Registry (`getMutex` backed by the `another-mutex` dependency, which is not
part of `src/`) has "FIFO (first-in-first-out) wait ordering over
acquirers", and the lock "is held across the entire state machine,
including every existence-check retry and every write retry".  While one
operation holds the lock the queued operations have no pending callbacks
at all, so the N concurrent submissions execute as the plain sequence of
their executions in lock-request order; `none` when some operation's retry
loop exceeds the fuel. -/
def runAllWrites (cfgs : List WConfig) (fuel : Nat) :
    Option (List (List WEvent)) :=
  match cfgs with
  | [] => some []
  | c :: rest =>
    match executeWrite c fuel with
    | none => none
    | some evs => (runAllWrites rest fuel).map (evs :: ·)

/-- Effect of one write-engine event on the destination's content: a
completed write replaces the content with the payload (`createWriteStream`
with `w`-style flags truncates and the whole payload is written before
`end()`); other events leave it unchanged. -/
def applyWEvent (content : Option String) (e : WEvent) : Option String :=
  match e with
  | .wrote payload => some payload
  | _ => content

/-- Destination content after a list of write-engine events. -/
def finalContent (content : Option String) (evs : List WEvent) :
    Option String :=
  evs.foldl applyWEvent content

/-- A write configuration with a cooperating environment, used by
witnesses: a bare path (no parent directory step) whose stream attempt
finishes at once. -/
def wcfgOf (payload : String) : WConfig where
  filePath := "t"
  payload := payload
  hasFinishCb := true
  hasErrorCb := true
  writeFileExistsRetryStrategy := asEngineStrategy defaultWriteFileExistsRetryStrategy
  writeFileRetryStrategy := asEngineStrategy defaultWriteFileRetryStrategy
  isNamedPipe := false
  existsOutcome := fun _ => none
  writeOutcome := fun _ => .streamFinish

/-- A write configuration whose every stream attempt fails with `EIO`, so
the default strategy exhausts at attempt 5 (a write-retry-exhaustion
terminal path). -/
def wcfgFail : WConfig where
  filePath := "t"
  payload := "x"
  hasFinishCb := true
  hasErrorCb := true
  writeFileExistsRetryStrategy := asEngineStrategy defaultWriteFileExistsRetryStrategy
  writeFileRetryStrategy := asEngineStrategy defaultWriteFileRetryStrategy
  isNamedPipe := false
  existsOutcome := fun _ => none
  writeOutcome := fun _ => .streamError { code := "EIO" }

/-! ## The continuous read engine (`ReadOperation`)

`ReadOperation` is single-threaded and callback-driven: at any moment its
one thread of control is suspended in at most one place — inside an
`fs.access` call, inside a `_setTimeout` timer, or attached as the handlers
of the one active stream.  The machine below makes that suspension point
explicit (`RCtl`) and is driven by a trace of environment events; all
consumer-visible callback invocations are collected as `ROut` outputs.
Chunks are numbered by `Nat`.  The machine covers `readTimeout = 0` (the
default); the timeout timer of `_createReadStream` is modelled separately
above. -/

/-- Externally visible effects of a `ReadOperation`: data callback with its
chunk and the delivered attempt number, finish callback, error callback,
`stream.destroy()`, and the zero-length FIFO-unblocking write of
`finish()`. -/
inductive ROut
  | dataCb (chunk : Nat) (attempt : Nat)
  | finishCb
  | errorCb (e : JsError)
  | destroyStream
  | zeroLengthWrite
deriving DecidableEq, Repr

/-- The callback captured by a pending `_setTimeout` timer:
`() => this._waitForFileAndRead(attempt)` or
`() => this._performRead(attempt)`. -/
inductive RCont
  | waitFile (attempt : Nat)
  | readAgain (attempt : Nat)
deriving DecidableEq, Repr

/-- The locals of one `_performRead` invocation captured by its stream
handlers: `hasReceivedData` and the mutable `attempt`. -/
structure StreamSt where
  hasReceivedData : Bool
  attempt : Nat
deriving DecidableEq, Repr

/-- Where the operation's single thread of control is suspended:
waiting for an `fs.access` callback, waiting for a `_setTimeout` timer,
attached to the active stream, or nowhere (terminal). -/
inductive RCtl
  | accessWait (attempt : Nat)
  | timer (cont : RCont) (delay : Nat)
  | streaming (st : StreamSt)
  | idle
deriving DecidableEq, Repr

/-- Mutable state of a `ReadOperation`: the `_stopReading` and
`_isFinished` flags, the control point, and the count of
`_createReadStream` calls so far (index into the open-failure oracle). -/
structure RState where
  stopReading : Bool
  isFinished : Bool
  ctl : RCtl
  gen : Nat
deriving DecidableEq, Repr

/-- Configuration and environment of one `ReadOperation`. -/
structure RConfig where
  /-- `this._filePath` -/
  filePath : String
  /-- `this._isFIFO()` (constant per path during a run) -/
  isFIFO : Bool
  /-- whether `onData` registered a callback -/
  hasDataCb : Bool
  /-- whether `onFinish` registered a callback -/
  hasFinishCb : Bool
  /-- whether `onError` registered a callback -/
  hasErrorCb : Bool
  /-- `options.readFileExistsRetryStrategy` -/
  readFileExistsRetryStrategy : RetryStrategy
  /-- `options.readFileRetryStrategy` -/
  readFileRetryStrategy : RetryStrategy
  /-- whether the consumer's data callback calls the supplied `finish`
  for this chunk and attempt number -/
  consumerFinish : Nat → Nat → Bool
  /-- whether the `gen`-th `_createReadStream` call throws -/
  openErr : Nat → Option JsError

/-- `ReadOperation._handleError`: fire the error callback only when one was
registered; otherwise the error is dropped. -/
def handleErrorR (cfg : RConfig) (e : JsError) : List ROut :=
  if cfg.hasErrorCb then [.errorCb e] else []

/-- `ReadOperation.finish()`: when neither flag is set, set both, destroy
any active stream (for FIFOs additionally `fs.writeFileSync(path, '')`),
null `_activeStream`, and fire the finish callback.  Otherwise do
nothing.  Pending `_setTimeout` timers are not cleared here; their wrapped
callbacks check `_stopReading` when they fire. -/
def finishOp (cfg : RConfig) (s : RState) : RState × List ROut :=
  if !s.stopReading && !s.isFinished then
    let destroyOuts : List ROut :=
      match s.ctl with
      | .streaming _ =>
          .destroyStream :: (if cfg.isFIFO then [.zeroLengthWrite] else [])
      | _ => []
    let ctl1 : RCtl :=
      match s.ctl with
      | .streaming _ => .idle
      | c => c
    ({ s with stopReading := true, isFinished := true, ctl := ctl1 },
      destroyOuts ++ (if cfg.hasFinishCb then [.finishCb] else []))
  else
    (s, [])

/-- `ReadOperation._performRead(attempt)`: bail out when stopped; otherwise
`_createReadStream()` — a throw lands in the `catch` and runs
`_handleError`; success installs the stream with `hasReceivedData = false`
and the given attempt number. -/
def performRead (cfg : RConfig) (s : RState) (attempt : Nat) :
    RState × List ROut :=
  if s.stopReading then (s, [])
  else
    match cfg.openErr s.gen with
    | some e => ({ s with ctl := .idle, gen := s.gen + 1 }, handleErrorR cfg e)
    | none =>
        ({ s with
            ctl := RCtl.streaming { hasReceivedData := false, attempt := attempt },
            gen := s.gen + 1 }, [])

/-- `ReadOperation._waitForFileAndRead(attempt)`: bail out when stopped;
otherwise start `fs.access` and suspend until its callback. -/
def waitForFileAndRead (_cfg : RConfig) (s : RState) (attempt : Nat) :
    RState × List ROut :=
  if s.stopReading then (s, [])
  else ({ s with ctl := .accessWait attempt }, [])

/-- The `fs.access` callback body inside `_waitForFileAndRead` (the
suspended control point has already been consumed): bail out when stopped;
on success run `_performRead(1)`; on error consult
`readFileExistsRetryStrategy` — a numeric delay (or 1 ms for a non-number)
schedules `_waitForFileAndRead(attempt + 1)`, a throw runs
`_handleError`. -/
def onAccessResult (cfg : RConfig) (s : RState) (attempt : Nat)
    (res : Option JsError) : RState × List ROut :=
  if s.stopReading then (s, [])
  else
    match res with
    | none => performRead cfg s 1
    | some err =>
        match cfg.readFileExistsRetryStrategy err attempt cfg.filePath with
        | .ok (some d) => ({ s with ctl := .timer (.waitFile (attempt + 1)) d }, [])
        | .ok none => ({ s with ctl := .timer (.waitFile (attempt + 1)) 1 }, [])
        | .error e2 => ({ s with ctl := .idle }, handleErrorR cfg e2)

/-- A pending `_setTimeout` timer fires: the wrapper removes the timer,
checks `_stopReading`, and only then runs the captured callback. -/
def onFire (cfg : RConfig) (s : RState) : RState × List ROut :=
  match s.ctl with
  | .timer cont _ =>
      let s1 := { s with ctl := RCtl.idle }
      if s1.stopReading then (s1, [])
      else
        match cont with
        | .waitFile a => waitForFileAndRead cfg s1 a
        | .readAgain a => performRead cfg s1 a
  | _ => (s, [])

/-- The stream `data` handler: bail out when stopped; the first chunk sets
`hasReceivedData` and resets `attempt` to 1; then the consumer's data
callback (if registered) receives the chunk, `internalFinish`, and the
current attempt — and may call `finish()` right there. -/
def onChunk (cfg : RConfig) (s : RState) (c : Nat) : RState × List ROut :=
  match s.ctl with
  | .streaming st =>
      if s.stopReading then (s, [])
      else
        let st1 : StreamSt :=
          if !st.hasReceivedData then { hasReceivedData := true, attempt := 1 }
          else st
        let s1 := { s with ctl := RCtl.streaming st1 }
        if cfg.hasDataCb && !s1.stopReading then
          if cfg.consumerFinish c st1.attempt then
            let fin := finishOp cfg s1
            (fin.1, .dataCb c st1.attempt :: fin.2)
          else
            (s1, [.dataCb c st1.attempt])
        else (s1, [])
  | _ => (s, [])

/-- The stream `end` handler: when not stopped, for a FIFO null
`_activeStream` and schedule `_performRead` with the *current* attempt
after 50 ms; for any other kind null `_activeStream` and fire the finish
callback — without touching `_stopReading` / `_isFinished`. -/
def onEnd (cfg : RConfig) (s : RState) : RState × List ROut :=
  match s.ctl with
  | .streaming st =>
      if s.stopReading then (s, [])
      else if cfg.isFIFO then
        ({ s with ctl := .timer (.readAgain st.attempt) 50 }, [])
      else
        ({ s with ctl := RCtl.idle },
          if cfg.hasFinishCb then [.finishCb] else [])
  | _ => (s, [])

/-- The stream `error` handler: bail out when stopped; null
`_activeStream`; consult `readFileRetryStrategy` — a numeric delay
schedules `_performRead(attempt + 1)`, a non-number calls it immediately, a
throw runs `_handleError`. -/
def onStreamError (cfg : RConfig) (s : RState) (e : JsError) :
    RState × List ROut :=
  match s.ctl with
  | .streaming st =>
      if s.stopReading then (s, [])
      else
        let s1 := { s with ctl := RCtl.idle }
        match cfg.readFileRetryStrategy e st.attempt cfg.filePath with
        | .ok (some d) =>
            ({ s1 with ctl := .timer (.readAgain (st.attempt + 1)) d }, [])
        | .ok none => performRead cfg s1 (st.attempt + 1)
        | .error e2 => (s1, handleErrorR cfg e2)
  | _ => (s, [])

/-- Environment events driving one `ReadOperation`: the `fs.access`
callback result, a pending timer firing, stream `data` / `end` / `error`
events, and the consumer calling `finish()`. -/
inductive REvent
  | accessResult (res : Option JsError)
  | fire
  | chunk (c : Nat)
  | endEv
  | errorEv (e : JsError)
  | userFinish
deriving DecidableEq, Repr

/-- One environment event.  Stream and access events act only at the
matching control point (a destroyed or replaced stream emits nothing; a
consumed callback cannot return twice). -/
def rstep (cfg : RConfig) (s : RState) : REvent → RState × List ROut
  | .userFinish => finishOp cfg s
  | .accessResult res =>
      match s.ctl with
      | .accessWait a => onAccessResult cfg { s with ctl := RCtl.idle } a res
      | _ => (s, [])
  | .fire => onFire cfg s
  | .chunk c => onChunk cfg s c
  | .endEv => onEnd cfg s
  | .errorEv e => onStreamError cfg s e

/-- Run the machine over an event trace, collecting outputs in order. -/
def runRead (cfg : RConfig) (s : RState) : List REvent → RState × List ROut
  | [] => (s, [])
  | ev :: rest =>
      let p := rstep cfg s ev
      let q := runRead cfg p.1 rest
      (q.1, p.2 ++ q.2)

/-- State right after `read()`: `_execute` runs `_waitForFileAndRead(1)`,
suspending in the first `fs.access` call with attempt 1. -/
def initRState : RState :=
  { stopReading := false, isFinished := false, ctl := .accessWait 1, gen := 0 }

/-- A FIFO writer disconnecting `k` times: each disconnection is the
stream's `end` event followed by the 50 ms reconnect timer firing. -/
def fifoCycle (k : Nat) : List REvent :=
  (List.replicate k [REvent.endEv, REvent.fire]).flatten

/-- No data callback can ever fire again from this state: the operation is
stopped, or its control point is `idle` (no stream, no pending callback —
the state after a terminal error and after a non-FIFO natural end). -/
def NoData (s : RState) : Prop := s.stopReading = true ∨ s.ctl = RCtl.idle

/-- The attempt number stored in an active stream that has already
delivered data is 1 (trivial at any other control point). -/
def attemptInvCtl : RCtl → Prop
  | RCtl.streaming st => st.hasReceivedData = true → st.attempt = 1
  | _ => True

/-- `attemptInvCtl` at the operation's control point. -/
def AttemptInv (s : RState) : Prop := attemptInvCtl s.ctl

/-- A concrete read configuration for witnesses and counterexamples: a
regular file with all callbacks registered, default strategies, a consumer
that never calls `finish` from `onData`, and streams that always open. -/
def rcfg0 : RConfig where
  filePath := "t"
  isFIFO := false
  hasDataCb := true
  hasFinishCb := true
  hasErrorCb := true
  readFileExistsRetryStrategy := asEngineStrategy defaultReadFileExistsRetryStrategy
  readFileRetryStrategy := asEngineStrategy defaultReadFileRetryStrategy
  consumerFinish := fun _ _ => false
  openErr := fun _ => none

/-- `rcfg0` on a FIFO path. -/
def rcfgFifo : RConfig := { rcfg0 with isFIFO := true }

/-- `rcfg0` whose consumer calls `finish()` on every chunk from `onData`. -/
def rcfgSelfFinish : RConfig := { rcfg0 with consumerFinish := fun _ _ => true }

/-- `rcfg0` with no error callback registered. -/
def rcfgNoErrCb : RConfig := { rcfg0 with hasErrorCb := false }

/-- `wcfgFail` with no error callback registered. -/
def wcfgFailNoErrCb : WConfig := { wcfgFail with hasErrorCb := false }

/-- A stopped operation (after `finish()`). -/
def rStopped : RState :=
  { stopReading := true, isFinished := true, ctl := RCtl.idle, gen := 1 }

/-- An operation whose control point is `idle` (e.g. right after a terminal
error). -/
def rIdle : RState :=
  { stopReading := false, isFinished := false, ctl := RCtl.idle, gen := 1 }

/-- An operation streaming with attempt number 5 and data already
received. -/
def rStreaming5 : RState :=
  { stopReading := false, isFinished := false,
    ctl := RCtl.streaming { hasReceivedData := true, attempt := 5 }, gen := 1 }

/-- A FIFO read operation streaming with attempt 3 and data received. -/
def rStreamingFifo : RState :=
  { stopReading := false, isFinished := false,
    ctl := RCtl.streaming { hasReceivedData := true, attempt := 3 }, gen := 2 }

/-- A read state streaming with attempt 1 and data received. -/
def rStreaming1 : RState :=
  { stopReading := false, isFinished := false,
    ctl := RCtl.streaming { hasReceivedData := true, attempt := 1 }, gen := 1 }

/-! ## Theorems -/

/-- Every terminating `_performWrite` run produces exactly the success
events or the failure events for some terminal error. -/
theorem performWrite_shape (cfg : WConfig) (fuel attempt : Nat)
    (evs : List WEvent) (h : performWrite cfg fuel attempt = some evs) :
    evs = successEvents cfg ∨ ∃ e, evs = failureEvents cfg e := by
  induction fuel generalizing attempt with
  | zero => simp [performWrite] at h
  | succ n ih =>
    rw [performWrite] at h
    cases hw : cfg.writeOutcome attempt with
    | setupThrow e =>
      simp only [hw] at h
      exact Or.inr ⟨e, by simpa [failureEvents] using h.symm⟩
    | streamFinish =>
      simp only [hw] at h
      exact Or.inl (by simpa [successEvents] using h.symm)
    | streamError e =>
      simp only [hw] at h
      cases hs : cfg.writeFileRetryStrategy e attempt cfg.filePath with
      | ok d => simp only [hs] at h; exact ih _ h
      | error e2 =>
        simp only [hs] at h
        exact Or.inr ⟨e2, by simpa [failureEvents] using h.symm⟩

/-- Every terminating `_waitForFileAndWrite` run produces exactly the
success events or the failure events for some terminal error. -/
theorem waitForFileAndWrite_shape (cfg : WConfig) (fuel attempt : Nat)
    (evs : List WEvent) (h : waitForFileAndWrite cfg fuel attempt = some evs) :
    evs = successEvents cfg ∨ ∃ e, evs = failureEvents cfg e := by
  induction fuel generalizing attempt with
  | zero => simp [waitForFileAndWrite] at h
  | succ n ih =>
    rw [waitForFileAndWrite] at h
    by_cases hdev : (jsStartsWith cfg.filePath "/dev/" || cfg.isNamedPipe) = true
    · rw [if_pos hdev] at h
      cases he : cfg.existsOutcome attempt with
      | none => simp only [he] at h; exact performWrite_shape cfg n 1 evs h
      | some e =>
        simp only [he] at h
        cases hs : cfg.writeFileExistsRetryStrategy e attempt cfg.filePath with
        | ok d => simp only [hs] at h; exact ih _ h
        | error e2 =>
          simp only [hs] at h
          exact Or.inr ⟨e2, by simpa [failureEvents] using h.symm⟩
    · rw [if_neg hdev] at h
      by_cases hdir : dirnamePart cfg.filePath = ""
      · rw [if_pos hdir] at h
        exact performWrite_shape cfg n 1 evs h
      · rw [if_neg hdir] at h
        cases he : cfg.existsOutcome attempt with
        | none => simp only [he] at h; exact performWrite_shape cfg n 1 evs h
        | some e =>
          simp only [he] at h
          by_cases hx : e.code = "EEXIST"
          · rw [if_pos hx] at h
            exact performWrite_shape cfg n 1 evs h
          · rw [if_neg hx] at h
            cases hs : cfg.writeFileExistsRetryStrategy e attempt cfg.filePath with
            | ok d => simp only [hs] at h; exact ih _ h
            | error e2 =>
              simp only [hs] at h
              exact Or.inr ⟨e2, by simpa [failureEvents] using h.symm⟩

/-- The success events release the lock exactly once. -/
theorem successEvents_unlock_count (cfg : WConfig) :
    (successEvents cfg).count WEvent.unlock = 1 := by
  by_cases h : cfg.hasFinishCb = true <;>
    simp [successEvents, h, List.count_cons, List.count_append]

/-- The failure events release the lock exactly once. -/
theorem failureEvents_unlock_count (cfg : WConfig) (e : JsError) :
    (failureEvents cfg e).count WEvent.unlock = 1 := by
  by_cases h : cfg.hasErrorCb = true <;>
    simp [failureEvents, handleErrorW, h, List.count_cons]

/-- Any terminating write execution releases the lock exactly once. -/
theorem executeWrite_unlock_once (cfg : WConfig) (fuel : Nat)
    (evs : List WEvent) (h : executeWrite cfg fuel = some evs) :
    evs.count WEvent.unlock = 1 := by
  rcases waitForFileAndWrite_shape cfg fuel 1 evs h with hs | ⟨e, hf⟩
  · rw [hs]; exact successEvents_unlock_count cfg
  · rw [hf]; exact failureEvents_unlock_count cfg e

theorem finalContent_append (content : Option String) (xs ys : List WEvent) :
    finalContent content (xs ++ ys) = finalContent (finalContent content xs) ys :=
  List.foldl_append ..

theorem finalContent_successEvents (content : Option String) (cfg : WConfig) :
    finalContent content (successEvents cfg) = some cfg.payload := by
  by_cases h : cfg.hasFinishCb = true <;>
    simp [finalContent, successEvents, applyWEvent, h]

theorem runAllWrites_cons_eq (c : WConfig) (rest : List WConfig) (fuel : Nat)
    (evs : List WEvent) (l : List (List WEvent))
    (hc : executeWrite c fuel = some evs)
    (hrest : runAllWrites rest fuel = some l) :
    runAllWrites (c :: rest) fuel = some (evs :: l) := by
  simp [runAllWrites, hc, hrest]

/-- Serialized runs of succeeding writes: the trace is the concatenation of
each operation's full success trace, in lock-request order, and the final
content is the last operation's payload. -/
theorem runAllWrites_lastWins (cfgs : List WConfig) (fuel : Nat)
    (clast : WConfig) (hlast : cfgs.getLast? = some clast)
    (hsucc : ∀ cfg ∈ cfgs, executeWrite cfg fuel = some (successEvents cfg))
    (init : Option String) :
    runAllWrites cfgs fuel = some (cfgs.map successEvents) ∧
      finalContent init ((cfgs.map successEvents).flatten) = some clast.payload := by
  induction cfgs generalizing init with
  | nil => simp at hlast
  | cons c rest ih =>
    have hc : executeWrite c fuel = some (successEvents c) :=
      hsucc c (List.mem_cons_self c rest)
    have hrest : ∀ cfg ∈ rest, executeWrite cfg fuel = some (successEvents cfg) :=
      fun cfg hm => hsucc cfg (List.mem_cons_of_mem c hm)
    cases rest with
    | nil =>
      have hcl : c = clast := by simpa using hlast
      refine ⟨runAllWrites_cons_eq c [] fuel _ _ hc rfl, ?_⟩
      rw [← hcl]
      simp [finalContent_successEvents]
    | cons c2 rest2 =>
      have hlast2 : (c2 :: rest2).getLast? = some clast := by
        rw [List.getLast?_cons_cons] at hlast; exact hlast
      rcases ih hlast2 hrest (finalContent init (successEvents c)) with ⟨h1, h2⟩
      refine ⟨runAllWrites_cons_eq c (c2 :: rest2) fuel _ _ hc h1, ?_⟩
      simpa [finalContent_append] using h2

/-- **C1.** N Write Operations submitted concurrently against the same path
each reach a terminal state, execute their entire retry sequences one at a
time in the order their lock-acquisition requests were issued, and the
final file content equals the payload of the write whose lock acquisition
was last.  (Stated for operations whose environment lets every write
complete; `runAllWrites` records the spec-modelled FIFO lock order.) -/
theorem concurrentWrites_serialize_lastWriteWins
    (cfgs : List WConfig) (fuel : Nat) (clast : WConfig)
    (hlast : cfgs.getLast? = some clast)
    (hsucc : ∀ cfg ∈ cfgs, executeWrite cfg fuel = some (successEvents cfg))
    (init : Option String) :
    runAllWrites cfgs fuel = some (cfgs.map successEvents) ∧
      finalContent init ((cfgs.map successEvents).flatten) = some clast.payload :=
  runAllWrites_lastWins cfgs fuel clast hlast hsucc init

/-- Witness for C1 at N = 3: the "Write 1" / "Write 2" / "Write 3" scenario
of the spec, final content `"Write 3"`. -/
theorem concurrentWrites_serialize_lastWriteWins_witness :
    runAllWrites [wcfgOf "Write 1", wcfgOf "Write 2", wcfgOf "Write 3"] 2 =
        some ([wcfgOf "Write 1", wcfgOf "Write 2", wcfgOf "Write 3"].map
          successEvents) ∧
      finalContent none
          (([wcfgOf "Write 1", wcfgOf "Write 2", wcfgOf "Write 3"].map
            successEvents).flatten) = some "Write 3" :=
  concurrentWrites_serialize_lastWriteWins
    [wcfgOf "Write 1", wcfgOf "Write 2", wcfgOf "Write 3"] 2 (wcfgOf "Write 3")
    rfl
    (by
      intro cfg hm
      simp only [List.mem_cons, List.not_mem_nil, or_false] at hm
      rcases hm with rfl | rfl | rfl <;> rfl)
    none

/-- **C2.** A Write Operation releases its acquired per-path lock exactly
once on every terminal path — successful stream finish, write-retry
exhaustion, existence-retry exhaustion, and an unexpected exception during
the write — never leaked, never released twice: every terminating
execution's event list contains exactly one `unlock`. -/
theorem writeLock_released_exactly_once (cfg : WConfig) (fuel : Nat)
    (evs : List WEvent) (h : executeWrite cfg fuel = some evs) :
    evs.count WEvent.unlock = 1 := by
  rcases waitForFileAndWrite_shape cfg fuel 1 evs h with hs | ⟨e, hf⟩
  · rw [hs]; exact successEvents_unlock_count cfg
  · rw [hf]; exact failureEvents_unlock_count cfg e

/-- Witness for C2 on a retry-exhaustion terminal path. -/
theorem writeLock_released_exactly_once_witness :
    executeWrite wcfgFail 6 =
        some [WEvent.unlock, WEvent.errorCb
          { message := "Failed to write to file after 5 retries: t" }] ∧
      ([WEvent.unlock, WEvent.errorCb
          { message := "Failed to write to file after 5 retries: t" }].count
        WEvent.unlock = 1) :=
  ⟨by decide, writeLock_released_exactly_once wcfgFail 6 _ (by decide)⟩

/-- A stopped-and-finished operation reacts to no event: every handler
checks `_stopReading` (or, for `finish()`, `_isFinished`) first. -/
theorem rstep_stopped (cfg : RConfig) (s : RState) (ev : REvent)
    (h1 : s.stopReading = true) (h2 : s.isFinished = true) :
    (rstep cfg s ev).2 = [] ∧ (rstep cfg s ev).1.stopReading = true ∧
      (rstep cfg s ev).1.isFinished = true := by
  cases ev with
  | userFinish => simp [rstep, finishOp, h1, h2]
  | accessResult res =>
      cases hctl : s.ctl <;>
        simp [rstep, hctl, onAccessResult, h1, h2]
  | fire =>
      cases hctl : s.ctl <;>
        simp [rstep, onFire, hctl, h1, h2]
  | chunk c =>
      cases hctl : s.ctl <;>
        simp [rstep, onChunk, hctl, h1, h2]
  | endEv =>
      cases hctl : s.ctl <;>
        simp [rstep, onEnd, hctl, h1, h2]
  | errorEv e =>
      cases hctl : s.ctl <;>
        simp [rstep, onStreamError, hctl, h1, h2]

/-- A stopped-and-finished operation emits nothing, ever. -/
theorem runRead_stopped (cfg : RConfig) (s : RState) (evs : List REvent)
    (h1 : s.stopReading = true) (h2 : s.isFinished = true) :
    (runRead cfg s evs).2 = [] := by
  induction evs generalizing s with
  | nil => simp [runRead]
  | cons ev rest ih =>
      obtain ⟨ho, hs1, hs2⟩ := rstep_stopped cfg s ev h1 h2
      simp [runRead, ho, ih _ hs1 hs2]

/-- Processing a `finish()` call leaves both terminal flags set (the flags
are only ever set together, so reachable states satisfy the hypothesis). -/
theorem rstep_userFinish_flags (cfg : RConfig) (s : RState)
    (hflags : s.stopReading = s.isFinished) :
    (rstep cfg s REvent.userFinish).1.stopReading = true ∧
      (rstep cfg s REvent.userFinish).1.isFinished = true := by
  by_cases h : s.stopReading = true
  · simp [rstep, finishOp, h, hflags ▸ h]
  · have h1 : s.stopReading = false := Bool.eq_false_iff.mpr h
    have h2 : s.isFinished = false := by rw [← hflags]; exact h1
    simp [rstep, finishOp, h1, h2]

/-- **C3 counterexample.** The claim "calling `finish()` after the
operation has already reached Finished (natural end-of-stream) has no
additional effect and never re-fires the finish callback" is false: a
non-FIFO stream ends naturally (first `finishCb`), and since the `end`
handler sets neither `_stopReading` nor `_isFinished`, a later `finish()`
call passes the guard and fires `finishCb` again — two firings. -/
theorem finish_after_natural_end_refires :
    ((runRead rcfg0 initRState
        [REvent.accessResult none, REvent.chunk 0, REvent.endEv,
          REvent.userFinish]).2).count ROut.finishCb = 2 := by decide

/-- **C3** (amended).  The finish callback fires at most once as a result
of `finish()` calls: the first effective `finish()` fires it exactly once
(when registered), and afterwards no event whatsoever — including further
`finish()` calls — produces any output.  (Unamendable part of the original
claim: a natural end-of-stream or a terminal error does *not* mark the
operation finished, so a `finish()` call arriving after those fires the
finish callback once more — see the counterexample.) -/
theorem finish_fires_once_then_silent (cfg : RConfig) (s : RState)
    (hflags : s.stopReading = s.isFinished) (evs : List REvent) :
    (s.stopReading = false → cfg.hasFinishCb = true →
        ((rstep cfg s REvent.userFinish).2.count ROut.finishCb = 1)) ∧
      (runRead cfg (rstep cfg s REvent.userFinish).1 evs).2 = [] := by
  constructor
  · intro hs hcb
    have hf : s.isFinished = false := by rw [← hflags]; exact hs
    cases hctl : s.ctl <;>
      by_cases hfifo : cfg.isFIFO = true <;>
        simp [rstep, finishOp, hs, hf, hctl, hcb, hfifo, List.count_append,
          List.count_cons]
  · obtain ⟨h1, h2⟩ := rstep_userFinish_flags cfg s hflags
    exact runRead_stopped cfg _ evs h1 h2

/-- Witness for C3 (amended): from the freshly started operation, one
`finish()` fires the callback once; a second `finish()` and a stray stream
event produce nothing. -/
theorem finish_fires_once_then_silent_witness :
    (initRState.stopReading = false → rcfg0.hasFinishCb = true →
        ((rstep rcfg0 initRState REvent.userFinish).2.count ROut.finishCb = 1)) ∧
      (runRead rcfg0 (rstep rcfg0 initRState REvent.userFinish).1
          [REvent.userFinish, REvent.endEv]).2 = [] :=
  finish_fires_once_then_silent rcfg0 initRState rfl
    [REvent.userFinish, REvent.endEv]

/-- A step from a `NoData` state emits no data callback and stays
`NoData`: a stopped operation ignores everything, and from `idle` there is
no stream and no pending callback to produce one. -/
theorem rstep_noData (cfg : RConfig) (s : RState) (ev : REvent)
    (h : NoData s) :
    (∀ c a, ROut.dataCb c a ∉ (rstep cfg s ev).2) ∧ NoData (rstep cfg s ev).1 := by
  rcases h with hstop | hidle
  · cases ev with
    | userFinish =>
        refine ⟨fun c a => by simp [rstep, finishOp, hstop], Or.inl ?_⟩
        simp [rstep, finishOp, hstop]
    | accessResult res =>
        cases hctl : s.ctl <;>
          exact ⟨fun c a => by simp [rstep, hctl, onAccessResult, hstop],
            Or.inl (by simp [rstep, hctl, onAccessResult, hstop])⟩
    | fire =>
        cases hctl : s.ctl <;>
          exact ⟨fun c a => by simp [rstep, onFire, hctl, hstop],
            Or.inl (by simp [rstep, onFire, hctl, hstop])⟩
    | chunk c =>
        cases hctl : s.ctl <;>
          exact ⟨fun c a => by simp [rstep, onChunk, hctl, hstop],
            Or.inl (by simp [rstep, onChunk, hctl, hstop])⟩
    | endEv =>
        cases hctl : s.ctl <;>
          exact ⟨fun c a => by simp [rstep, onEnd, hctl, hstop],
            Or.inl (by simp [rstep, onEnd, hctl, hstop])⟩
    | errorEv e =>
        cases hctl : s.ctl <;>
          exact ⟨fun c a => by simp [rstep, onStreamError, hctl, hstop],
            Or.inl (by simp [rstep, onStreamError, hctl, hstop])⟩
  · cases ev with
    | userFinish =>
        by_cases hrun : (!s.stopReading && !s.isFinished) = true
        · exact ⟨fun c a => by simp [rstep, finishOp, hrun, hidle],
            Or.inr (by simp [rstep, finishOp, hrun, hidle])⟩
        · exact ⟨fun c a => by simp [rstep, finishOp, hrun],
            Or.inr (by simp [rstep, finishOp, hrun, hidle])⟩
    | accessResult res => exact ⟨fun c a => by simp [rstep, hidle], Or.inr (by simp [rstep, hidle])⟩
    | fire => exact ⟨fun c a => by simp [rstep, onFire, hidle], Or.inr (by simp [rstep, onFire, hidle])⟩
    | chunk c => exact ⟨fun c a => by simp [rstep, onChunk, hidle], Or.inr (by simp [rstep, onChunk, hidle])⟩
    | endEv => exact ⟨fun c a => by simp [rstep, onEnd, hidle], Or.inr (by simp [rstep, onEnd, hidle])⟩
    | errorEv e => exact ⟨fun c a => by simp [rstep, onStreamError, hidle], Or.inr (by simp [rstep, onStreamError, hidle])⟩

/-- From a `NoData` state, no event trace ever produces a data callback. -/
theorem runRead_noData (cfg : RConfig) (s : RState) (evs : List REvent)
    (h : NoData s) :
    ∀ c a, ROut.dataCb c a ∉ (runRead cfg s evs).2 := by
  induction evs generalizing s with
  | nil => intro c a; simp [runRead]
  | cons ev rest ih =>
      obtain ⟨h1, h2⟩ := rstep_noData cfg s ev h
      intro c a
      simp only [runRead, List.mem_append]
      push_neg
      exact ⟨h1 c a, ih _ h2 c a⟩

/-- **C4.** The data callback is never invoked after `finish()` has been
called (`stopReading` set) or after a terminal error (control `idle`): no
later event trace contains a data output.  Moreover a terminal error — the
mid-stream strategy raising — lands exactly in `idle` with only the error
callback fired, and calling `finish()` inside the data callback makes the
post-chunk state stopped, so no further data callback can ever fire. -/
theorem dataCb_never_after_finish_or_error (cfg : RConfig) :
    (∀ s evs, s.stopReading = true →
        ∀ c a, ROut.dataCb c a ∉ (runRead cfg s evs).2) ∧
      (∀ s evs, s.ctl = RCtl.idle →
        ∀ c a, ROut.dataCb c a ∉ (runRead cfg s evs).2) ∧
      (∀ s st e e2, s.ctl = RCtl.streaming st → s.stopReading = false →
        cfg.readFileRetryStrategy e st.attempt cfg.filePath = Except.error e2 →
        (rstep cfg s (REvent.errorEv e)).1.ctl = RCtl.idle ∧
          (rstep cfg s (REvent.errorEv e)).2 = handleErrorR cfg e2) ∧
      (∀ s st c, s.ctl = RCtl.streaming st → s.stopReading = false →
        s.isFinished = false → cfg.hasDataCb = true →
        cfg.consumerFinish c (if st.hasReceivedData then st.attempt else 1) = true →
        (rstep cfg s (REvent.chunk c)).1.stopReading = true) := by
  refine ⟨fun s evs h => runRead_noData cfg s evs (Or.inl h),
    fun s evs h => runRead_noData cfg s evs (Or.inr h), ?_, ?_⟩
  · intro s st e e2 hctl hstop hstrat
    constructor <;> simp [rstep, onStreamError, hctl, hstop, hstrat]
  · intro s st c hctl hstop hfin hdata hcf
    cases hrec : st.hasReceivedData with
    | true =>
        rw [hrec] at hcf
        simp only [if_true] at hcf
        simp [rstep, onChunk, hctl, hstop, hfin, hdata, hcf, finishOp, hrec]
    | false =>
        rw [hrec] at hcf
        simp only [Bool.false_eq_true, if_false] at hcf
        simp [rstep, onChunk, hctl, hstop, hfin, hdata, hcf, finishOp, hrec]

/-- Witness for C4: concrete instances of all four conjuncts, with a
consumer that calls `finish()` from `onData` and a strategy that exhausts
at attempt 5. -/
theorem dataCb_never_after_finish_or_error_witness :
    (ROut.dataCb 5 1 ∉ (runRead rcfgSelfFinish rStopped [REvent.chunk 5]).2) ∧
      (ROut.dataCb 5 1 ∉ (runRead rcfgSelfFinish rIdle [REvent.chunk 5]).2) ∧
      ((rstep rcfgSelfFinish rStreaming5
          (REvent.errorEv { code := "EIO" })).1.ctl = RCtl.idle ∧
        (rstep rcfgSelfFinish rStreaming5 (REvent.errorEv { code := "EIO" })).2 =
          handleErrorR rcfgSelfFinish
            { message := "Failed to read file after 5 retries: t" }) ∧
      ((rstep rcfgSelfFinish rStreaming5 (REvent.chunk 0)).1.stopReading = true) :=
  ⟨(dataCb_never_after_finish_or_error rcfgSelfFinish).1 rStopped
      [REvent.chunk 5] rfl 5 1,
    (dataCb_never_after_finish_or_error rcfgSelfFinish).2.1 rIdle
      [REvent.chunk 5] rfl 5 1,
    (dataCb_never_after_finish_or_error rcfgSelfFinish).2.2.1 rStreaming5
      { hasReceivedData := true, attempt := 5 } { code := "EIO" }
      { message := "Failed to read file after 5 retries: t" } rfl rfl rfl,
    (dataCb_never_after_finish_or_error rcfgSelfFinish).2.2.2 rStreaming5
      { hasReceivedData := true, attempt := 5 } 0 rfl rfl rfl rfl (by decide)⟩

/-- `_handleError` never emits a data callback. -/
theorem dataCb_not_mem_handleErrorR (cfg : RConfig) (e : JsError) (c a : Nat) :
    ROut.dataCb c a ∉ handleErrorR cfg e := by
  by_cases h : cfg.hasErrorCb = true <;> simp [handleErrorR, h]

/-- Every step preserves `AttemptInv`, and every data callback it emits
delivers attempt number 1: a fresh stream starts with `hasReceivedData =
false`, the first chunk resets the attempt to 1, and later chunks reuse the
stored attempt, which the invariant pins to 1. -/
theorem rstep_attemptInv (cfg : RConfig) (s : RState) (ev : REvent)
    (h : AttemptInv s) :
    AttemptInv (rstep cfg s ev).1 ∧
      ∀ c a, ROut.dataCb c a ∈ (rstep cfg s ev).2 → a = 1 := by
  have h2 : attemptInvCtl s.ctl := h
  cases ev with
  | userFinish =>
      cases hctl : s.ctl <;>
        by_cases hstop : s.stopReading = true <;>
          by_cases hfin : s.isFinished = true <;>
            simp_all [rstep, finishOp, AttemptInv, attemptInvCtl]
  | accessResult res =>
      cases hctl : s.ctl with
      | accessWait a =>
          rcases res with _ | err <;>
            by_cases hstop : s.stopReading = true
          · simp_all [rstep, onAccessResult, AttemptInv, attemptInvCtl]
          · cases hope : cfg.openErr s.gen <;>
              simp_all [rstep, onAccessResult, performRead, AttemptInv,
                attemptInvCtl, dataCb_not_mem_handleErrorR]
          · simp_all [rstep, onAccessResult, AttemptInv, attemptInvCtl]
          · cases hstrat : cfg.readFileExistsRetryStrategy err a cfg.filePath with
            | ok d =>
                cases d <;>
                  simp_all [rstep, onAccessResult, AttemptInv, attemptInvCtl]
            | error e2 =>
                simp_all [rstep, onAccessResult, AttemptInv, attemptInvCtl,
                  dataCb_not_mem_handleErrorR]
      | timer cont delay =>
          simp_all [rstep, AttemptInv, attemptInvCtl]
      | streaming st => simp_all [rstep, AttemptInv, attemptInvCtl]
      | idle => simp_all [rstep, AttemptInv, attemptInvCtl]
  | fire =>
      cases hctl : s.ctl with
      | timer cont delay =>
          by_cases hstop : s.stopReading = true
          · simp_all [rstep, onFire, AttemptInv, attemptInvCtl]
          · cases cont with
            | waitFile a =>
                simp_all [rstep, onFire, waitForFileAndRead, AttemptInv,
                  attemptInvCtl]
            | readAgain a =>
                cases hope : cfg.openErr s.gen <;>
                  simp_all [rstep, onFire, performRead, AttemptInv, attemptInvCtl,
                    dataCb_not_mem_handleErrorR]
      | accessWait a => simp_all [rstep, onFire, AttemptInv, attemptInvCtl]
      | streaming st => simp_all [rstep, onFire, AttemptInv, attemptInvCtl]
      | idle => simp_all [rstep, onFire, AttemptInv, attemptInvCtl]
  | chunk c =>
      cases hctl : s.ctl with
      | streaming st =>
          by_cases hstop : s.stopReading = true
          · simp_all [rstep, onChunk, AttemptInv, attemptInvCtl]
          · cases hrec : st.hasReceivedData <;>
              by_cases hfin : s.isFinished = true <;>
                by_cases hdcb : (cfg.hasDataCb && !s.stopReading) = true <;>
                  by_cases hcf : cfg.consumerFinish c (if st.hasReceivedData then st.attempt else 1) = true <;>
                    simp_all [rstep, onChunk, finishOp, AttemptInv, attemptInvCtl]
      | accessWait a => simp_all [rstep, onChunk, AttemptInv, attemptInvCtl]
      | timer cont delay => simp_all [rstep, onChunk, AttemptInv, attemptInvCtl]
      | idle => simp_all [rstep, onChunk, AttemptInv, attemptInvCtl]
  | endEv =>
      cases hctl : s.ctl with
      | streaming st =>
          by_cases hstop : s.stopReading = true <;>
            by_cases hfifo : cfg.isFIFO = true <;>
              simp_all [rstep, onEnd, AttemptInv, attemptInvCtl]
      | accessWait a => simp_all [rstep, onEnd, AttemptInv, attemptInvCtl]
      | timer cont delay => simp_all [rstep, onEnd, AttemptInv, attemptInvCtl]
      | idle => simp_all [rstep, onEnd, AttemptInv, attemptInvCtl]
  | errorEv e =>
      cases hctl : s.ctl with
      | streaming st =>
          by_cases hstop : s.stopReading = true
          · simp_all [rstep, onStreamError, AttemptInv, attemptInvCtl]
          · cases hstrat : cfg.readFileRetryStrategy e st.attempt cfg.filePath with
            | ok d =>
                cases d with
                | none =>
                    cases hope : cfg.openErr s.gen <;>
                      simp_all [rstep, onStreamError, performRead, AttemptInv,
                        attemptInvCtl, dataCb_not_mem_handleErrorR]
                | some delay =>
                    simp_all [rstep, onStreamError, AttemptInv, attemptInvCtl]
            | error e2 =>
                simp_all [rstep, onStreamError, AttemptInv, attemptInvCtl,
                  dataCb_not_mem_handleErrorR]
      | accessWait a => simp_all [rstep, onStreamError, AttemptInv, attemptInvCtl]
      | timer cont delay => simp_all [rstep, onStreamError, AttemptInv, attemptInvCtl]
      | idle => simp_all [rstep, onStreamError, AttemptInv, attemptInvCtl]

/-- Along any trace from an `AttemptInv` state, every data callback
delivers attempt number 1. -/
theorem runRead_attempt_one (cfg : RConfig) (s : RState) (evs : List REvent)
    (h : AttemptInv s) :
    ∀ c a, ROut.dataCb c a ∈ (runRead cfg s evs).2 → a = 1 := by
  induction evs generalizing s with
  | nil => intro c a; simp [runRead]
  | cons ev rest ih =>
      obtain ⟨h1, hout⟩ := rstep_attemptInv cfg s ev h
      intro c a hmem
      simp only [runRead, List.mem_append] at hmem
      rcases hmem with hm | hm
      · exact hout c a hm
      · exact ih _ h1 c a hm

/-- **C5.** Every data callback of a `ReadOperation` delivers attempt
number 1: the first chunk on each (re)opened stream resets the counter to 1
regardless of how many existence-check or stream-failure retries preceded
it, and subsequent chunks on the same stream keep observing 1 (the counter
only grows on failures, which close the stream). -/
theorem dataCb_attempt_always_one (cfg : RConfig) (evs : List REvent)
    (c a : Nat) (hmem : ROut.dataCb c a ∈ (runRead cfg initRState evs).2) :
    a = 1 :=
  runRead_attempt_one cfg initRState evs trivial c a hmem

/-- Witness for C5: an existence-check retry, then a reopened stream whose
chunks are delivered — both with attempt 1. -/
theorem dataCb_attempt_always_one_witness :
    (ROut.dataCb 7 1 ∈ (runRead rcfg0 initRState
        [REvent.accessResult (some { code := "ENOENT" }), REvent.fire,
          REvent.accessResult none, REvent.chunk 7, REvent.chunk 8]).2) ∧
      1 = 1 :=
  ⟨by decide,
    dataCb_attempt_always_one rcfg0
      [REvent.accessResult (some { code := "ENOENT" }), REvent.fire,
        REvent.accessResult none, REvent.chunk 7, REvent.chunk 8] 7 1 (by decide)⟩

theorem runRead_append (cfg : RConfig) (s : RState) (xs ys : List REvent) :
    runRead cfg s (xs ++ ys) =
      ((runRead cfg (runRead cfg s xs).1 ys).1,
        (runRead cfg s xs).2 ++ (runRead cfg (runRead cfg s xs).1 ys).2) := by
  induction xs generalizing s with
  | nil => simp [runRead]
  | cons x rest ih =>
      simp [runRead, ih, List.append_assoc]

theorem fifoCycle_succ (k : Nat) :
    fifoCycle (k + 1) = REvent.endEv :: REvent.fire :: fifoCycle k := by
  simp [fifoCycle, List.replicate_succ]

/-- One FIFO writer disconnection (`end`, then the 50 ms timer firing)
reopens the stream with the same attempt number and no output. -/
theorem runRead_fifoOnce (cfg : RConfig) (s : RState) (st : StreamSt)
    (hfifo : cfg.isFIFO = true) (hopen : cfg.openErr s.gen = none)
    (hctl : s.ctl = RCtl.streaming st) (hstop : s.stopReading = false) :
    runRead cfg s [REvent.endEv, REvent.fire] =
      ({ s with
          ctl := RCtl.streaming { hasReceivedData := false, attempt := st.attempt },
          gen := s.gen + 1 }, []) := by
  simp [runRead, rstep, onEnd, onFire, performRead, hctl, hstop, hfifo, hopen]

/-- From an active FIFO stream, `k + 1` writer disconnections (each: `end`
then the 50 ms timer) silently reopen the stream each time, preserving the
attempt number and producing no output whatsoever. -/
theorem runRead_fifoCycle (cfg : RConfig) (s : RState) (st : StreamSt)
    (k : Nat) (hfifo : cfg.isFIFO = true) (hopen : ∀ g, cfg.openErr g = none)
    (hctl : s.ctl = RCtl.streaming st) (hstop : s.stopReading = false) :
    runRead cfg s (fifoCycle (k + 1)) =
      ({ s with
          ctl := RCtl.streaming { hasReceivedData := false, attempt := st.attempt },
          gen := s.gen + (k + 1) }, []) := by
  induction k generalizing s st with
  | zero =>
      have h1 : fifoCycle 1 = [REvent.endEv, REvent.fire] := by
        simp [fifoCycle]
      rw [h1, runRead_fifoOnce cfg s st hfifo (hopen s.gen) hctl hstop]
  | succ n ih =>
      have hsplit : fifoCycle (n + 1 + 1) =
          [REvent.endEv, REvent.fire] ++ fifoCycle (n + 1) := by
        rw [fifoCycle_succ]; rfl
      rw [hsplit, runRead_append,
        runRead_fifoOnce cfg s st hfifo (hopen s.gen) hctl hstop]
      dsimp only
      rw [ih { s with
          ctl := RCtl.streaming { hasReceivedData := false, attempt := st.attempt },
          gen := s.gen + 1 } { hasReceivedData := false, attempt := st.attempt }
        rfl hstop]
      simp
      omega

/-- **C6.** A FIFO Read Operation observing end-of-stream before `finish()`
does not fire the finish callback and does not consult any retry strategy:
the `end` step schedules `_performRead` with the *current* attempt number
after the fixed 50 ms delay and emits nothing; any number of such
disconnect/reopen cycles leaves the operation actively streaming with the
same attempt number, still not finished, with no output — and the whole
run is independent of the configured retry strategies. -/
theorem fifoEnd_resumes_without_finish (cfg : RConfig) (s : RState)
    (st : StreamSt) (k : Nat)
    (hfifo : cfg.isFIFO = true) (hopen : ∀ g, cfg.openErr g = none)
    (hctl : s.ctl = RCtl.streaming st) (hstop : s.stopReading = false) :
    ((rstep cfg s REvent.endEv).1.ctl =
          RCtl.timer (RCont.readAgain st.attempt) 50 ∧
        (rstep cfg s REvent.endEv).2 = []) ∧
      (runRead cfg s (fifoCycle (k + 1))).2 = [] ∧
      (runRead cfg s (fifoCycle (k + 1))).1.ctl =
        RCtl.streaming { hasReceivedData := false, attempt := st.attempt } ∧
      (runRead cfg s (fifoCycle (k + 1))).1.stopReading = false ∧
      ∀ f g,
        runRead { cfg with
          readFileExistsRetryStrategy := f,
          readFileRetryStrategy := g } s (fifoCycle (k + 1)) =
        runRead cfg s (fifoCycle (k + 1)) := by
  refine ⟨⟨?_, ?_⟩, ?_, ?_, ?_, ?_⟩
  · simp [rstep, onEnd, hctl, hstop, hfifo]
  · simp [rstep, onEnd, hctl, hstop, hfifo]
  · rw [runRead_fifoCycle cfg s st k hfifo hopen hctl hstop]
  · rw [runRead_fifoCycle cfg s st k hfifo hopen hctl hstop]
  · rw [runRead_fifoCycle cfg s st k hfifo hopen hctl hstop]
    exact hstop
  · intro f g
    rw [runRead_fifoCycle cfg s st k hfifo hopen hctl hstop,
      runRead_fifoCycle { cfg with
        readFileExistsRetryStrategy := f,
        readFileRetryStrategy := g } s st k hfifo hopen hctl hstop]

/-- Witness for C6 at two disconnect cycles. -/
theorem fifoEnd_resumes_without_finish_witness :
    ((rstep rcfgFifo rStreamingFifo REvent.endEv).1.ctl =
          RCtl.timer (RCont.readAgain 3) 50 ∧
        (rstep rcfgFifo rStreamingFifo REvent.endEv).2 = []) ∧
      ((runRead rcfgFifo rStreamingFifo (fifoCycle 2)).2 = [] ∧
        (runRead rcfgFifo rStreamingFifo (fifoCycle 2)).1.ctl =
          RCtl.streaming { hasReceivedData := false, attempt := 3 } ∧
        (runRead rcfgFifo rStreamingFifo (fifoCycle 2)).1.stopReading = false) :=
  have h := fifoEnd_resumes_without_finish rcfgFifo rStreamingFifo
    { hasReceivedData := true, attempt := 3 } 1 rfl (fun _ => rfl) rfl rfl
  ⟨h.1, h.2.1, h.2.2.1, h.2.2.2.1⟩

/-- **C7 counterexample.** The claim that the read-timeout timer "is
cancelled on every terminal stream event (end, error, or closure)" is
false: the only `clearTimeout` registration is on `'error'`, so the timer
stays armed across `end` and `close`. -/
theorem readTimeout_not_cleared_on_end :
    readTimeoutCleared StreamEv.endEv = false ∧
      readTimeoutCleared StreamEv.closeEv = false := by decide

/-- **C7** (amended).  With a positive configured read timeout a timer is
armed on each stream opening; on expiry it destroys the stream with the
timeout error, which is processed by the stream `error` handler exactly
like any other stream error (retry on a returned delay, terminal on a
throw); the timer is cancelled only when the stream emits `error` — not on
`end` or `close`, after which it can still fire. -/
theorem readTimeout_armed_and_routed (cfg : RConfig) (s : RState)
    (st : StreamSt) (t : Nat) (e2 : JsError) (d : Nat)
    (hctl : s.ctl = RCtl.streaming st) (hstop : s.stopReading = false) :
    (∀ timeout, readTimeoutArmed timeout = true ↔ 0 < timeout) ∧
      readTimeoutCleared StreamEv.errorEv = true ∧
      (cfg.readFileRetryStrategy (readTimeoutError cfg.filePath t) st.attempt
          cfg.filePath = Except.error e2 →
        (rstep cfg s (REvent.errorEv (readTimeoutError cfg.filePath t))).1.ctl =
            RCtl.idle ∧
          (rstep cfg s (REvent.errorEv (readTimeoutError cfg.filePath t))).2 =
            handleErrorR cfg e2) ∧
      (cfg.readFileRetryStrategy (readTimeoutError cfg.filePath t) st.attempt
          cfg.filePath = Except.ok (some d) →
        (rstep cfg s (REvent.errorEv (readTimeoutError cfg.filePath t))).1.ctl =
          RCtl.timer (RCont.readAgain (st.attempt + 1)) d) := by
  refine ⟨fun timeout => by simp [readTimeoutArmed], rfl, ?_, ?_⟩
  · intro hstrat
    constructor <;> simp [rstep, onStreamError, hctl, hstop, hstrat]
  · intro hstrat
    simp [rstep, onStreamError, hctl, hstop, hstrat]

/-- Witness for C7 (amended): the timeout error at attempt 1 is retried
after the default 100 ms; at attempt 5 it is terminal. -/
theorem readTimeout_armed_and_routed_witness :
    ((rstep rcfg0 rStreaming1
        (REvent.errorEv (readTimeoutError "t" 30))).1.ctl =
      RCtl.timer (RCont.readAgain 2) 100) ∧
      ((rstep rcfg0 rStreaming5
          (REvent.errorEv (readTimeoutError "t" 30))).1.ctl = RCtl.idle) ∧
      readTimeoutArmed 30 = true :=
  ⟨(readTimeout_armed_and_routed rcfg0 rStreaming1
        { hasReceivedData := true, attempt := 1 } 30
        { message := "Failed to read file after 5 retries: t" } 100
        rfl rfl).2.2.2 rfl,
    ((readTimeout_armed_and_routed rcfg0 rStreaming5
        { hasReceivedData := true, attempt := 5 } 30
        { message := "Failed to read file after 5 retries: t" } 100
        rfl rfl).2.2.1 rfl).1,
    ((readTimeout_armed_and_routed rcfg0 rStreaming1
        { hasReceivedData := true, attempt := 1 } 30
        { message := "Failed to read file after 5 retries: t" } 100
        rfl rfl).1 30).mpr (by decide)⟩

/-- **C8.** The default existence-check retry strategies (read and write):
for a not-found (`ENOENT`) error on a `/dev/`-prefixed path, return
`2000 * min(attempt, 5)` ms when `attempt < 10` and raise when
`attempt ≥ 10`; on any other path, return `1000 * attempt` ms when
`attempt < 5` and raise when `attempt ≥ 5`; and for any error that is not
`ENOENT`, raise immediately, re-throwing the original error. -/
theorem default_exists_strategies_spec (e : JsError) (a : Nat) (p : String) :
    (e.code = "ENOENT" → jsStartsWith p "/dev/" = true →
        ((a < 10 →
            defaultReadFileExistsRetryStrategy e a p = .ok (2000 * min a 5) ∧
            defaultWriteFileExistsRetryStrategy e a p = .ok (2000 * min a 5)) ∧
          (10 ≤ a →
            raisesError (defaultReadFileExistsRetryStrategy e a p) ∧
            raisesError (defaultWriteFileExistsRetryStrategy e a p)))) ∧
      (e.code = "ENOENT" → jsStartsWith p "/dev/" = false →
        ((a < 5 →
            defaultReadFileExistsRetryStrategy e a p = .ok (1000 * a) ∧
            defaultWriteFileExistsRetryStrategy e a p = .ok (1000 * a)) ∧
          (5 ≤ a →
            raisesError (defaultReadFileExistsRetryStrategy e a p) ∧
            raisesError (defaultWriteFileExistsRetryStrategy e a p)))) ∧
      (e.code ≠ "ENOENT" →
        defaultReadFileExistsRetryStrategy e a p = .error e ∧
        defaultWriteFileExistsRetryStrategy e a p = .error e) := by
  refine ⟨?_, ?_, ?_⟩
  · intro hcode hdev
    constructor
    · intro hlt
      have hn : ¬ 10 ≤ a := Nat.not_le.mpr hlt
      constructor <;>
        simp [defaultReadFileExistsRetryStrategy,
          defaultWriteFileExistsRetryStrategy, hcode, hdev, hn]
    · intro hge
      constructor <;>
        simp [raisesError, defaultReadFileExistsRetryStrategy,
          defaultWriteFileExistsRetryStrategy, hcode, hdev, hge]
  · intro hcode hdev
    constructor
    · intro hlt
      have hn : ¬ 5 ≤ a := Nat.not_le.mpr hlt
      constructor <;>
        simp [defaultReadFileExistsRetryStrategy,
          defaultWriteFileExistsRetryStrategy, hcode, hdev, hn]
    · intro hge
      constructor <;>
        simp [raisesError, defaultReadFileExistsRetryStrategy,
          defaultWriteFileExistsRetryStrategy, hcode, hdev, hge]
  · intro hcode
    constructor <;>
      simp [defaultReadFileExistsRetryStrategy,
        defaultWriteFileExistsRetryStrategy, hcode]

/-- Witness for C8 across all five behaviors. -/
theorem default_exists_strategies_spec_witness :
    defaultReadFileExistsRetryStrategy { code := "ENOENT" } 3 "/dev/ttyUSB0" =
        .ok (2000 * min 3 5) ∧
      raisesError
        (defaultWriteFileExistsRetryStrategy { code := "ENOENT" } 12 "/dev/ttyUSB0") ∧
      defaultWriteFileExistsRetryStrategy { code := "ENOENT" } 2 "tmp/x" =
        .ok (1000 * 2) ∧
      raisesError (defaultReadFileExistsRetryStrategy { code := "ENOENT" } 5 "tmp/x") ∧
      defaultReadFileExistsRetryStrategy { code := "EACCES" } 1 "tmp/x" =
        .error { code := "EACCES" } :=
  ⟨((default_exists_strategies_spec { code := "ENOENT" } 3 "/dev/ttyUSB0").1
      rfl (by decide)).1 (by omega) |>.1,
    ((default_exists_strategies_spec { code := "ENOENT" } 12 "/dev/ttyUSB0").1
      rfl (by decide)).2 (by omega) |>.2,
    ((default_exists_strategies_spec { code := "ENOENT" } 2 "tmp/x").2.1
      rfl (by decide)).1 (by omega) |>.2,
    ((default_exists_strategies_spec { code := "ENOENT" } 5 "tmp/x").2.1
      rfl (by decide)).2 (by omega) |>.1,
    ((default_exists_strategies_spec { code := "EACCES" } 1 "tmp/x").2.2
      (by decide)).1⟩

/-- **C9 counterexample.** The claim that "the read engine opens its stream
read-only" for block devices is false: `_createReadStream` never consults
the device kind and attempts `r+` for every `/dev/` path. -/
theorem blockDevice_read_opens_rw :
    readStreamFlags "/dev/sda" false = "r+" ∧
      readStreamFlags "/dev/sda" false ≠ "r" := by decide

/-- **C9** (amended).  The write engine opens block devices write-only and
attempts `r+` for character devices, falling back to `w`; the read engine
treats all device paths alike — character or block — first attempting the
read-write `r+` open and falling back to read-only `r` only when that open
fails. -/
theorem device_open_flags (p : String) (fails : Bool)
    (hdev : jsStartsWith p "/dev/" = true) :
    writeStreamFlags p DeviceKind.block fails = "w" ∧
      writeStreamFlags p DeviceKind.character fails =
        (if fails then "w" else "r+") ∧
      readStreamFlags p fails = (if fails then "r" else "r+") := by
  cases fails <;> simp [writeStreamFlags, readStreamFlags, hdev]

/-- Witness for C9 (amended) on `/dev/sda`. -/
theorem device_open_flags_witness :
    writeStreamFlags "/dev/sda" DeviceKind.block false = "w" ∧
      writeStreamFlags "/dev/sda" DeviceKind.character false = "r+" ∧
      readStreamFlags "/dev/sda" false = "r+" :=
  device_open_flags "/dev/sda" false (by decide)

/-- With no error callback registered, no single step of a Read Operation
ever emits an error-callback output. -/
theorem rstep_no_errorCb (cfg : RConfig) (s : RState) (ev : REvent)
    (hcb : cfg.hasErrorCb = false) (e : JsError) :
    ROut.errorCb e ∉ (rstep cfg s ev).2 := by
  cases ev with
  | userFinish =>
      cases hctl : s.ctl <;>
        by_cases hstop : s.stopReading = true <;>
          by_cases hfin : s.isFinished = true <;>
            simp_all [rstep, finishOp, handleErrorR]
  | accessResult res =>
      cases hctl : s.ctl with
      | accessWait a =>
          rcases res with _ | err <;>
            by_cases hstop : s.stopReading = true
          · simp_all [rstep, onAccessResult]
          · cases hope : cfg.openErr s.gen <;>
              simp_all [rstep, onAccessResult, performRead, handleErrorR]
          · simp_all [rstep, onAccessResult]
          · cases hstrat : cfg.readFileExistsRetryStrategy err a cfg.filePath with
            | ok d => cases d <;> simp_all [rstep, onAccessResult]
            | error e2 => simp_all [rstep, onAccessResult, handleErrorR]
      | timer cont delay => simp_all [rstep]
      | streaming st => simp_all [rstep]
      | idle => simp_all [rstep]
  | fire =>
      cases hctl : s.ctl with
      | timer cont delay =>
          by_cases hstop : s.stopReading = true
          · simp_all [rstep, onFire]
          · cases cont with
            | waitFile a => simp_all [rstep, onFire, waitForFileAndRead]
            | readAgain a =>
                cases hope : cfg.openErr s.gen <;>
                  simp_all [rstep, onFire, performRead, handleErrorR]
      | accessWait a => simp_all [rstep, onFire]
      | streaming st => simp_all [rstep, onFire]
      | idle => simp_all [rstep, onFire]
  | chunk c =>
      cases hctl : s.ctl with
      | streaming st =>
          by_cases hstop : s.stopReading = true
          · simp_all [rstep, onChunk]
          · cases hrec : st.hasReceivedData <;>
              by_cases hfin : s.isFinished = true <;>
                by_cases hdcb : (cfg.hasDataCb && !s.stopReading) = true <;>
                  by_cases hcf : cfg.consumerFinish c
                      (if st.hasReceivedData then st.attempt else 1) = true <;>
                    simp_all [rstep, onChunk, finishOp, handleErrorR]
      | accessWait a => simp_all [rstep, onChunk]
      | timer cont delay => simp_all [rstep, onChunk]
      | idle => simp_all [rstep, onChunk]
  | endEv =>
      cases hctl : s.ctl with
      | streaming st =>
          by_cases hstop : s.stopReading = true <;>
            by_cases hfifo : cfg.isFIFO = true <;>
              simp_all [rstep, onEnd]
      | accessWait a => simp_all [rstep, onEnd]
      | timer cont delay => simp_all [rstep, onEnd]
      | idle => simp_all [rstep, onEnd]
  | errorEv err =>
      cases hctl : s.ctl with
      | streaming st =>
          by_cases hstop : s.stopReading = true
          · simp_all [rstep, onStreamError]
          · cases hstrat : cfg.readFileRetryStrategy err st.attempt cfg.filePath with
            | ok d =>
                cases d with
                | none =>
                    cases hope : cfg.openErr s.gen <;>
                      simp_all [rstep, onStreamError, performRead, handleErrorR]
                | some delay => simp_all [rstep, onStreamError]
            | error e2 => simp_all [rstep, onStreamError, handleErrorR]
      | accessWait a => simp_all [rstep, onStreamError]
      | timer cont delay => simp_all [rstep, onStreamError]
      | idle => simp_all [rstep, onStreamError]

/-- With no error callback registered, a Read Operation never emits an
error-callback output along any trace. -/
theorem runRead_no_errorCb (cfg : RConfig) (s : RState) (evs : List REvent)
    (hcb : cfg.hasErrorCb = false) (e : JsError) :
    ROut.errorCb e ∉ (runRead cfg s evs).2 := by
  induction evs generalizing s with
  | nil => simp [runRead]
  | cons ev rest ih =>
      simp only [runRead, List.mem_append]
      push_neg
      exact ⟨rstep_no_errorCb cfg s ev hcb e, ih _⟩

/-- **C10.** When no error callback was registered, a terminal error is
silently discarded: the write engine's terminating executions contain no
error-callback output (no exception propagates — `_handleError` simply
returns) yet still release the per-path lock exactly once (the `unlock()`
precedes `_handleError` in every terminal error path); the read engine
never emits an error-callback output along any trace. -/
theorem unregistered_error_callback_drops_silently :
    (∀ (cfg : WConfig) (fuel : Nat) (evs : List WEvent),
        cfg.hasErrorCb = false → executeWrite cfg fuel = some evs →
        (∀ e, WEvent.errorCb e ∉ evs) ∧ evs.count WEvent.unlock = 1) ∧
      ∀ (cfg : RConfig) (s : RState) (evs : List REvent),
        cfg.hasErrorCb = false →
        ∀ e, ROut.errorCb e ∉ (runRead cfg s evs).2 := by
  constructor
  · intro cfg fuel evs hcb hrun
    constructor
    · intro e
      rcases waitForFileAndWrite_shape cfg fuel 1 evs hrun with hs | ⟨e2, hf⟩
      · rw [hs]
        by_cases hfc : cfg.hasFinishCb = true <;> simp [successEvents, hfc]
      · rw [hf]
        simp [failureEvents, handleErrorW, hcb]
    · rcases waitForFileAndWrite_shape cfg fuel 1 evs hrun with hs | ⟨e2, hf⟩
      · rw [hs]; exact successEvents_unlock_count cfg
      · rw [hf]; exact failureEvents_unlock_count cfg e2
  · exact fun cfg s evs hcb e => runRead_no_errorCb cfg s evs hcb e

/-- Witness for C10: a write whose retries exhaust with no error callback
registered emits only the `unlock`, and a read existence check whose
strategy re-throws emits nothing. -/
theorem unregistered_error_callback_drops_silently_witness :
    executeWrite wcfgFailNoErrCb 6 = some [WEvent.unlock] ∧
      (WEvent.errorCb { code := "EIO" } ∉ [WEvent.unlock]) ∧
      ([WEvent.unlock].count WEvent.unlock = 1) ∧
      (runRead rcfgNoErrCb initRState
          [REvent.accessResult (some { code := "EACCES" })]).2 = [] ∧
      (ROut.errorCb { code := "EACCES" } ∉
        (runRead rcfgNoErrCb initRState
          [REvent.accessResult (some { code := "EACCES" })]).2) :=
  ⟨by decide,
    (unregistered_error_callback_drops_silently.1 wcfgFailNoErrCb 6 [WEvent.unlock]
        rfl (by decide)).1 { code := "EIO" },
    (unregistered_error_callback_drops_silently.1 wcfgFailNoErrCb 6 [WEvent.unlock]
        rfl (by decide)).2,
    by decide,
    unregistered_error_callback_drops_silently.2 rcfgNoErrCb initRState
      [REvent.accessResult (some { code := "EACCES" })] rfl { code := "EACCES" }⟩

